import Mathlib

/-!
Verification of the dialect-backend layer of tables-to-go.

Shallow embedding of:
* the Oracle backend (`pkg/database/oracle.go`),
* the Postgresql backend (`pkg/database/postgresql.go`),
* the `db` tag generator (`pkg/tagger/db.go`),
together with models of the Go standard-library functions they call and of
the shared data model (`Column`, `Table`, `Settings`) described by the
specification.

Database access is modelled relationally: a catalog is a list of rows, the
SQL text of each query is embedded verbatim as a string, and a companion
Lean function gives that SQL text its standard relational meaning
(filtering, joins, DISTINCT, ORDER BY).  A possible driver failure is an
explicit `Option String` argument; printing is returned as a list of lines.
-/

namespace TablesToGo

/-! ### Models of Go standard-library functions -/

/-- Model of Go `strings.ToUpper` (all type names involved are ASCII). -/
def goToUpper (s : String) : String := String.mk (s.data.map Char.toUpper)

/-- Model of Go `strings.ToLower` (all type names involved are ASCII). -/
def goToLower (s : String) : String := String.mk (s.data.map Char.toLower)

/-- Helper for `goContains`: does `sub` occur as a contiguous run in `l`? -/
def strContainsAux (sub : List Char) : List Char → Bool
  | [] => sub.isEmpty
  | a :: t => sub.isPrefixOf (a :: t) || strContainsAux sub t

/-- Model of Go `strings.Contains s sub`. -/
def goContains (s sub : String) : Bool := strContainsAux sub.data s.data

/-- Digit run for `goAtoi`: value of a non-empty all-digit string. -/
def atoiDigits (ds : List Char) : Option Nat :=
  if ds.isEmpty then none
  else if ds.all Char.isDigit then
    some (ds.foldl (fun acc c => 10 * acc + (c.toNat - 48)) 0)
  else none

/-- Model of Go `strconv.Atoi`: optional sign then decimal digits; the empty
string, a lone sign, or any non-digit character is an error (`none`).
Go's `int` overflow bound is not modelled (ports are far below it). -/
def goAtoi (s : String) : Option Int :=
  match s.data with
  | [] => none
  | '+' :: ds => (atoiDigits ds).map Int.ofNat
  | '-' :: ds => (atoiDigits ds).map (fun n => -(n : Int))
  | ds => (atoiDigits ds).map Int.ofNat

/-- Model of `fmt`'s `%q` verb on the strings printed here (no escaping is
needed for the diagnostic values involved). -/
def goQuote (s : String) : String := "\x22" ++ s ++ "\x22"

/-- Byte-wise (binary collation) order on char lists, the order used by
`ORDER BY` in the embedded query semantics. -/
def charListLe : List Char → List Char → Bool
  | [], _ => true
  | _ :: _, [] => false
  | a :: as, b :: bs =>
    if a.toNat < b.toNat then true
    else if b.toNat < a.toNat then false
    else charListLe as bs

/-- Binary-collation order on strings. -/
def strLe (a b : String) : Bool := charListLe a.data b.data

/-! ### Canonical data model

Modelled from the spec: the `Column`, `Table` and `Settings` declarations
live in `pkg/database` / `pkg/settings`, outside the provided sources; the
fields below are the ones the spec's data-model section lists and the
embedded methods read.  `NullString`/`NullInt` model Go's
`sql.NullString`/`sql.NullInt64` (`str`/`int64` is the wrapped value,
`valid` its presence flag). -/

structure NullString where
  str : String
  valid : Bool
deriving DecidableEq, Repr

structure NullInt where
  int64 : Int
  valid : Bool
deriving DecidableEq, Repr

/-- Modelled from the spec: one database column (spec §3). -/
structure Column where
  OrdinalPosition : Nat := 0
  Name : String := ""
  DataType : String := ""
  DefaultValue : NullString := ⟨"", false⟩
  IsNullable : String := ""
  CharacterMaximumLength : NullInt := ⟨0, false⟩
  NumericPrecision : NullInt := ⟨0, false⟩
  ColumnKey : String := ""
  ConstraintName : NullString := ⟨"", false⟩
  ConstraintType : NullString := ⟨"", false⟩
deriving DecidableEq, Repr

/-- Modelled from the spec: one database table (spec §3). -/
structure Table where
  Name : String := ""
  Columns : List Column := []
deriving DecidableEq, Repr

/-- Modelled from the spec: the read-only backend configuration
(spec §3/§6); defaults are Go zero values. -/
structure Settings where
  DbType : String := ""
  User : String := ""
  Pswd : String := ""
  DbName : String := ""
  Host : String := ""
  Port : String := ""
  Schema : String := ""
  Socket : String := ""
  SSLMode : String := ""
  Verbose : Bool := false
deriving DecidableEq, Repr

/-- Result of running one database-access method: the value scanned into
the Go out-parameter, the returned `error` (`none` = nil), and the lines
printed to stdout. -/
structure RunResult (α : Type) where
  value : α
  err : Option String
  printed : List String
deriving DecidableEq, Repr

/-- Modelled from the spec: the shared package-level helper
`isStringInSlice` of `pkg/database` is not among the provided sources; per
the spec the category-membership test against a product's enumerated
datatype list is case-insensitive, modelled as equality after ASCII case
folding. -/
def isStringInSlice (needle : String) (haystack : List String) : Bool :=
  haystack.any (fun s => goToLower s == goToLower needle)

/-! ### Oracle backend — `pkg/database/oracle.go` -/

namespace Oracle

/-- One row of Oracle's `USER_TAB_COLUMNS` dictionary view, restricted to
the columns the embedded query selects. -/
structure TabColumnRow where
  TABLE_NAME : String := ""
  COLUMN_ID : Nat := 0
  COLUMN_NAME : String := ""
  DATA_TYPE : String := ""
  DATA_DEFAULT : NullString := ⟨"", false⟩
  NULLABLE : String := ""
  DATA_LENGTH : NullInt := ⟨0, false⟩
  DATA_PRECISION : NullInt := ⟨0, false⟩
deriving DecidableEq, Repr

/-- One row of Oracle's `ALL_OBJECTS` dictionary view, restricted to the
columns the embedded query reads. -/
structure AllObjectsRow where
  OBJECT_NAME : String := ""
  OBJECT_TYPE : String := ""
  OWNER : String := ""
deriving DecidableEq, Repr

/-- The receiver's `defaultUserName` field, set by `NewOracle`. -/
def defaultUserName : String := "system"

/-- Model of the external driver call `go_ora.BuildUrl` (its documented
output shape; the empty `urlOptions` map passed by `DSN` adds nothing). -/
def buildUrl (host : String) (port : Int) (service user password : String) : String :=
  "oracle://" ++ user ++ ":" ++ password ++ "@" ++ host ++ ":" ++ toString port ++ "/" ++ service

/-- `Oracle.DSN`.  `strconv.Atoi` failure makes the Go function `panic`,
modelled as `none`; `some` is the returned connection string. -/
def DSN (s : Settings) : Option String :=
  let user := if s.User == "" then defaultUserName else s.User
  match goAtoi s.Port with
  | none => none
  | some port => some (buildUrl s.Host port s.DbName user s.Pswd)

/-- `Oracle.Connect` calls `GeneralDatabase.Connect (o.DSN())`.  The
embedded base connect (not among the provided sources; per the spec it
establishes a session or fails with a connection error) is abstracted as
`connectOutcome`; the outer `none` is the panic propagated from `DSN`. -/
def Connect (connectOutcome : String → Option String) (s : Settings) :
    Option (Option String) :=
  (DSN s).map connectOutcome

/-- The SQL text built by `Oracle.GetTables` around its `%s` in-clause. -/
def getTablesQuery (inClause : String) : String :=
  "\nSELECT DISTINCT OBJECT_NAME as \x22table_name\x22\nFROM ALL_OBJECTS\nWHERE OBJECT_TYPE = \x27TABLE\x27\nAND OWNER = :owner\n" ++
    inClause ++ "\nORDER BY OBJECT_NAME\n\t"

/-- Relational meaning of `getTablesQuery` over an `ALL_OBJECTS` catalog:
keep base-table rows of the bound owner, restrict to the bound name list
when one was bound, and apply `DISTINCT` and `ORDER BY OBJECT_NAME`. -/
def getTablesQuerySemantics (cat : List AllObjectsRow) (owner : String)
    (nameArgs : List String) : List String :=
  (((cat.filter (fun o =>
      o.OBJECT_TYPE == "TABLE" && o.OWNER == owner &&
        (nameArgs.isEmpty || nameArgs.contains o.OBJECT_NAME))).map
    (fun o => o.OBJECT_NAME)).dedup).mergeSort strLe

/-- `Oracle.GetTables`.  `cat` is the `ALL_OBJECTS` catalog behind the
driver and `fail` an injected `Select` failure (`none` = success). -/
def GetTables (cat : List AllObjectsRow) (fail : Option String)
    (s : Settings) (tables : List String) : RunResult (List Table) :=
  let owner := goToUpper (if s.Schema == "" then s.User else s.Schema)
  let nameArgs := tables.map goToUpper
  let inClause := if tables.length > 0 then
    "AND OBJECT_NAME IN (" ++
      String.intercalate "," ((List.range tables.length).map
        (fun i => ":v" ++ Nat.repr i)) ++ ")"
    else ""
  let _query := getTablesQuery inClause
  match fail with
  | some e =>
    { value := [], err := some e,
      printed := if s.Verbose then
        ["> Error at GetTables()", "> owner: " ++ goQuote owner] else [] }
  | none =>
    { value := (getTablesQuerySemantics cat owner nameArgs).map
        (fun n => { Name := n, Columns := [] }),
      err := none, printed := [] }

/-- The SQL text prepared by `Oracle.PrepareGetColumnsOfTableStmt`. -/
def getColumnsOfTableQuery : String :=
  "\nSELECT\n    c.column_id AS \x22ordinal_position\x22,\n    c.column_name AS \x22column_name\x22,\n    c.data_type AS \x22data_type\x22,\n    c.data_default AS \x22column_default\x22,\n    c.nullable AS \x22is_nullable\x22,\n    c.data_length AS \x22character_maximum_length\x22,\n    c.data_precision AS \x22numeric_precision\x22\nFROM USER_TAB_COLUMNS c\nWHERE table_name = :name\n"

/-- How one selected `USER_TAB_COLUMNS` row scans into a `Column` (fields
the query does not select keep their Go zero values). -/
def rowToColumn (r : TabColumnRow) : Column :=
  { OrdinalPosition := r.COLUMN_ID
    Name := r.COLUMN_NAME
    DataType := r.DATA_TYPE
    DefaultValue := r.DATA_DEFAULT
    IsNullable := r.NULLABLE
    CharacterMaximumLength := r.DATA_LENGTH
    NumericPrecision := r.DATA_PRECISION }

/-- Relational meaning of `getColumnsOfTableQuery`: the rows of the bound
table name, in catalog row order — the SQL text has no `ORDER BY`. -/
def getColumnsQuerySemantics (cat : List TabColumnRow) (name : String) :
    List Column :=
  (cat.filter (fun r => r.TABLE_NAME == name)).map rowToColumn

/-- `Oracle.GetColumnsOfTable`: runs the prepared statement bound to
`table.Name`; the value is what is scanned into `table.Columns`. -/
def GetColumnsOfTable (cat : List TabColumnRow) (fail : Option String)
    (s : Settings) (table : Table) : RunResult (List Column) :=
  let owner := if s.Schema == "" then s.User else s.Schema
  match fail with
  | some e =>
    { value := [], err := some e,
      printed := if s.Verbose then
        ["> Error at GetColumnsOfTable(" ++ table.Name ++ ")",
         "> owner: " ++ goQuote owner,
         "> dbName: " ++ goQuote s.DbName] else [] }
  | none =>
    { value := getColumnsQuerySemantics cat table.Name,
      err := none, printed := [] }

/-- `Oracle.IsPrimaryKey`. -/
def IsPrimaryKey (column : Column) : Bool := goContains column.ColumnKey "PRI"

/-- `Oracle.IsAutoIncrement`: Oracle has no auto-increment concept here. -/
def IsAutoIncrement (_column : Column) : Bool := false

/-- `Oracle.IsNullable`. -/
def IsNullable (column : Column) : Bool := column.IsNullable == "Y"

/-- `Oracle.GetStringDatatypes`. -/
def GetStringDatatypes : List String := ["CHAR", "VARCHAR2", "NCHAR", "NVARCHAR2"]

/-- `Oracle.IsString`. -/
def IsString (column : Column) : Bool :=
  isStringInSlice (goToUpper column.DataType) GetStringDatatypes

/-- `Oracle.GetTextDatatypes`. -/
def GetTextDatatypes : List String := ["CLOB", "NCLOB"]

/-- `Oracle.IsText`. -/
def IsText (column : Column) : Bool :=
  isStringInSlice (goToUpper column.DataType) GetTextDatatypes

/-- `Oracle.GetIntegerDatatypes`. -/
def GetIntegerDatatypes : List String := ["NUMBER", "INTEGER", "SMALLINT"]

/-- `Oracle.IsInteger`. -/
def IsInteger (column : Column) : Bool :=
  isStringInSlice (goToUpper column.DataType) GetIntegerDatatypes

/-- `Oracle.GetFloatDatatypes`. -/
def GetFloatDatatypes : List String :=
  ["FLOAT", "BINARY_FLOAT", "BINARY_DOUBLE", "DECIMAL", "NUMBER", "REAL",
   "DOUBLE PRECISION"]

/-- `Oracle.IsFloat`. -/
def IsFloat (column : Column) : Bool :=
  isStringInSlice (goToUpper column.DataType) GetFloatDatatypes

/-- `Oracle.GetTemporalDatatypes`. -/
def GetTemporalDatatypes : List String :=
  ["DATE", "TIMESTAMP", "TIMESTAMP WITH TIME ZONE",
   "TIMESTAMP WITH LOCAL TIME ZONE"]

/-- `Oracle.IsTemporal`. -/
def IsTemporal (column : Column) : Bool :=
  isStringInSlice (goToUpper column.DataType) GetTemporalDatatypes

end Oracle

/-! ### Postgresql backend — `pkg/database/postgresql.go` -/

namespace Postgresql

/-- One row of `information_schema.tables`, restricted to the columns the
embedded query reads. -/
structure InfoTableRow where
  table_name : String := ""
  table_schema : String := ""
  table_type : String := ""
deriving DecidableEq, Repr

/-- One row of `information_schema.columns`, restricted to the columns the
embedded query reads. -/
structure InfoColumnRow where
  table_name : String := ""
  table_schema : String := ""
  column_name : String := ""
  ordinal_position : Nat := 0
  data_type : String := ""
  column_default : NullString := ⟨"", false⟩
  is_nullable : String := ""
  character_maximum_length : NullInt := ⟨0, false⟩
  numeric_precision : NullInt := ⟨0, false⟩
deriving DecidableEq, Repr

/-- One row of `information_schema.key_column_usage`, restricted to the
columns the embedded query reads. -/
structure KeyColumnUsageRow where
  table_name : String := ""
  table_schema : String := ""
  column_name : String := ""
  constraint_name : String := ""
deriving DecidableEq, Repr

/-- One row of `information_schema.table_constraints`, restricted to the
columns the embedded query reads. -/
structure TableConstraintRow where
  table_name : String := ""
  table_schema : String := ""
  constraint_name : String := ""
  constraint_type : String := ""
deriving DecidableEq, Repr

/-- A Postgres `information_schema` catalog fixture. -/
structure Catalog where
  tables : List InfoTableRow := []
  columns : List InfoColumnRow := []
  keyColumnUsage : List KeyColumnUsageRow := []
  tableConstraints : List TableConstraintRow := []
deriving DecidableEq, Repr

/-- `Postgresql.andInClause`.  Go mutates `*args`; model as returning the
clause together with the grown args list (all args here are strings). -/
def andInClause (field : String) (params : List String)
    (args : List String) : String × List String :=
  if field == "" || params.isEmpty then ("", args)
  else
    let narg := args.length
    let nparam := params.length
    let placeholders := String.intercalate ","
      ((List.range nparam).map (fun i => "$" ++ Nat.repr (narg + i + 1)))
    ("AND " ++ field ++ " IN (" ++ placeholders ++ ")",
      args ++ params.map goToLower)

/-- The SQL text built by `Postgresql.GetTables` around its in-clause. -/
def getTablesQuery (inClause : String) : String :=
  "\n\t\tSELECT table_name\n\t\tFROM information_schema.tables\n\t\tWHERE table_type = \x27BASE TABLE\x27\n\t\tAND table_schema = $1\n\t\t" ++
    inClause ++ "\n\t\tORDER BY table_name\n\t"

/-- Relational meaning of `getTablesQuery` over an `information_schema`
catalog: base-table rows of the bound schema, restricted by
`LOWER(table_name) IN (...)` when name args were bound, ordered by
`table_name`. -/
def getTablesQuerySemantics (cat : Catalog) (schema : String)
    (nameArgs : List String) : List String :=
  ((cat.tables.filter (fun t =>
      t.table_type == "BASE TABLE" && t.table_schema == schema &&
        (nameArgs.isEmpty || nameArgs.contains (goToLower t.table_name)))).map
    (fun t => t.table_name)).mergeSort strLe

/-- `Postgresql.GetTables`.  `cat` is the catalog behind the driver and
`fail` an injected `Select` failure (`none` = success). -/
def GetTables (cat : Catalog) (fail : Option String) (s : Settings)
    (tables : List String) : RunResult (List Table) :=
  let args := [s.Schema]
  let clauseArgs := andInClause "LOWER(table_name)" tables args
  let _query := getTablesQuery clauseArgs.1
  match fail with
  | some e =>
    { value := [], err := some e,
      printed := if s.Verbose then
        ["> Error at GetTables()", "> schema: " ++ goQuote s.Schema] else [] }
  | none =>
    { value := (getTablesQuerySemantics cat s.Schema (clauseArgs.2.drop 1)).map
        (fun n => { Name := n, Columns := [] }),
      err := none, printed := [] }

/-- The SQL text prepared by `Postgresql.PrepareGetColumnsOfTableStmt`. -/
def getColumnsOfTableQuery : String :=
  "\n\t\tSELECT\n\t\t\tic.ordinal_position,\n\t\t\tic.column_name,\n\t\t\tic.data_type,\n\t\t\tic.column_default,\n\t\t\tic.is_nullable,\n\t\t\tic.character_maximum_length,\n\t\t\tic.numeric_precision,\n\t\t\titc.constraint_name,\n\t\t\titc.constraint_type\n\t\tFROM information_schema.columns AS ic\n\t\t\tLEFT JOIN information_schema.key_column_usage AS ikcu ON ic.table_name = ikcu.table_name\n\t\t\tAND ic.table_schema = ikcu.table_schema\n\t\t\tAND ic.column_name = ikcu.column_name\n\t\t\tLEFT JOIN information_schema.table_constraints AS itc ON ic.table_name = itc.table_name\n\t\t\tAND ic.table_schema = itc.table_schema\n\t\t\tAND ikcu.constraint_name = itc.constraint_name\n\t\tWHERE ic.table_name = $1\n\t\tAND ic.table_schema = $2\n\t\tORDER BY ic.ordinal_position\n\t"

/-- SQL `LEFT JOIN`: every left row, paired with each matching right row,
or with `none` when no right row matches. -/
def leftJoin {α β : Type} (l : List α) (r : List β) (cond : α → β → Bool) :
    List (α × Option β) :=
  l.flatMap (fun a =>
    match r.filter (cond a) with
    | [] => [(a, none)]
    | ms => ms.map (fun b => (a, some b)))

/-- How one selected row of the two-join query scans into a `Column`
(`NULL`s from an unmatched join become invalid `NullString`s; fields the
query does not select keep their Go zero values). -/
def rowToColumn (r : (InfoColumnRow × Option KeyColumnUsageRow) × Option TableConstraintRow) :
    Column :=
  { OrdinalPosition := r.1.1.ordinal_position
    Name := r.1.1.column_name
    DataType := r.1.1.data_type
    DefaultValue := r.1.1.column_default
    IsNullable := r.1.1.is_nullable
    CharacterMaximumLength := r.1.1.character_maximum_length
    NumericPrecision := r.1.1.numeric_precision
    ConstraintName := match r.2 with
      | some tc => ⟨tc.constraint_name, true⟩
      | none => ⟨"", false⟩
    ConstraintType := match r.2 with
      | some tc => ⟨tc.constraint_type, true⟩
      | none => ⟨"", false⟩ }

/-- Relational meaning of `getColumnsOfTableQuery`: `columns` left-joined
with `key_column_usage` (on table, schema and column name), the result
left-joined with `table_constraints` (on table, schema and the joined
constraint name — an SQL `NULL` constraint name matches nothing), filtered
to the bound table name and schema, ordered by `ic.ordinal_position`. -/
def getColumnsQuerySemantics (cat : Catalog) (name schema : String) :
    List Column :=
  let j1 := leftJoin cat.columns cat.keyColumnUsage (fun ic k =>
    ic.table_name == k.table_name && ic.table_schema == k.table_schema &&
      ic.column_name == k.column_name)
  let j2 := leftJoin j1 cat.tableConstraints (fun p tc =>
    p.1.table_name == tc.table_name && p.1.table_schema == tc.table_schema &&
      (match p.2 with
        | some k => k.constraint_name == tc.constraint_name
        | none => false))
  let rows := j2.filter (fun p =>
    p.1.1.table_name == name && p.1.1.table_schema == schema)
  (rows.map rowToColumn).mergeSort
    (fun a b => decide (a.OrdinalPosition ≤ b.OrdinalPosition))

/-- `Postgresql.GetColumnsOfTable`: runs the prepared statement bound to
`table.Name` and the configured schema; the value is what is scanned into
`table.Columns`. -/
def GetColumnsOfTable (cat : Catalog) (fail : Option String) (s : Settings)
    (table : Table) : RunResult (List Column) :=
  match fail with
  | some e =>
    { value := [], err := some e,
      printed := if s.Verbose then
        ["> Error at GetColumnsOfTable(" ++ table.Name ++ ")",
         "> schema: " ++ goQuote s.Schema] else [] }
  | none =>
    { value := getColumnsQuerySemantics cat table.Name s.Schema,
      err := none, printed := [] }

/-- `Postgresql.IsPrimaryKey`. -/
def IsPrimaryKey (column : Column) : Bool :=
  goContains column.ConstraintType.str "PRIMARY KEY"

/-- `Postgresql.IsAutoIncrement`. -/
def IsAutoIncrement (column : Column) : Bool :=
  goContains column.DefaultValue.str "nextval"

/-- `Postgresql.GetStringDatatypes`. -/
def GetStringDatatypes : List String :=
  ["character varying", "varchar", "character", "char", "uuid"]

/-- `Postgresql.IsString`. -/
def IsString (column : Column) : Bool :=
  isStringInSlice column.DataType GetStringDatatypes

/-- `Postgresql.GetTextDatatypes`. -/
def GetTextDatatypes : List String := ["text"]

/-- `Postgresql.IsText`. -/
def IsText (column : Column) : Bool :=
  isStringInSlice column.DataType GetTextDatatypes

/-- `Postgresql.GetIntegerDatatypes`. -/
def GetIntegerDatatypes : List String :=
  ["smallint", "integer", "bigint", "smallserial", "serial", "bigserial"]

/-- `Postgresql.IsInteger`. -/
def IsInteger (column : Column) : Bool :=
  isStringInSlice column.DataType GetIntegerDatatypes

/-- `Postgresql.GetFloatDatatypes`. -/
def GetFloatDatatypes : List String :=
  ["numeric", "decimal", "real", "double precision"]

/-- `Postgresql.IsFloat`. -/
def IsFloat (column : Column) : Bool :=
  isStringInSlice column.DataType GetFloatDatatypes

/-- `Postgresql.GetTemporalDatatypes`. -/
def GetTemporalDatatypes : List String :=
  ["time", "timestamp", "time with time zone", "timestamp with time zone",
   "time without time zone", "timestamp without time zone", "date"]

/-- `Postgresql.IsTemporal`. -/
def IsTemporal (column : Column) : Bool :=
  isStringInSlice column.DataType GetTemporalDatatypes

end Postgresql

/-! ### Tag generator — `pkg/tagger/db.go` -/

/-- The active backend handed to a tag generator (Go interface value). -/
inductive Database where
  | oracle : Settings → Database
  | postgresql : Settings → Database
deriving DecidableEq

/-- The standard `db` tag generator (an empty Go struct). -/
structure Db where
deriving DecidableEq

/-- `Db.GenerateTag`: the backend argument is ignored (`_` in Go). -/
def Db.GenerateTag (_t : Db) (_db : Database) (column : Column) : String :=
  "db:\x22" ++ column.Name ++ "\x22"

/-! ### Classification order -/

/-- The five semantic type categories plus the fallback (spec §3). -/
inductive Category where
  | String
  | Text
  | Integer
  | Float
  | Temporal
  | Unknown
deriving DecidableEq, Repr

/-- Modelled from the spec: the classifying caller (the emitter, not among
the provided sources) asks the Oracle category tests in the fixed order
String → Text → Integer → Float → Temporal, first match wins, `Unknown`
otherwise. -/
def Oracle.classifyColumn (c : Column) : Category :=
  if Oracle.IsString c then .String
  else if Oracle.IsText c then .Text
  else if Oracle.IsInteger c then .Integer
  else if Oracle.IsFloat c then .Float
  else if Oracle.IsTemporal c then .Temporal
  else .Unknown

/-! ### Helper lemmas -/

/-- ASCII case folding after upper-casing folds the same as folding
directly. -/
theorem charLower_toUpper (c : Char) : c.toUpper.toLower = c.toLower := by
  unfold Char.toUpper Char.toLower
  by_cases h : 97 ≤ c.toNat ∧ c.toNat ≤ 122
  · have h1 : (Char.ofNat (c.toNat - 32)).toNat = c.toNat - 32 := by
      obtain ⟨ha, hb⟩ := h
      set n := c.toNat with hn
      interval_cases n <;> decide
    simp only [ge_iff_le, h, and_self, if_true, h1]
    have h2 : 65 ≤ c.toNat - 32 ∧ c.toNat - 32 ≤ 90 := by omega
    have h3 : ¬ (65 ≤ c.toNat ∧ c.toNat ≤ 90) := by omega
    simp only [h2.1, h2.2, and_self, if_true, h3, if_false]
    have h4 : c.toNat - 32 + 32 = c.toNat := by omega
    rw [h4, Char.ofNat_toNat]
  · simp [h]

/-- `goToLower` after `goToUpper` equals `goToLower`. -/
theorem goToLower_goToUpper (s : String) :
    goToLower (goToUpper s) = goToLower s := by
  unfold goToLower goToUpper
  congr 1
  rw [List.map_map]
  exact List.map_congr_left (fun c _ => charLower_toUpper c)

/-- `strContainsAux` decides contiguous-sublist occurrence. -/
theorem strContainsAux_iff (sub l : List Char) :
    strContainsAux sub l = true ↔ sub <:+: l := by
  induction l with
  | nil => simp [strContainsAux, List.isEmpty_iff, List.infix_nil]
  | cons a t ih =>
    simp [strContainsAux, List.isPrefixOf_iff_prefix, ih, List.infix_cons_iff]

/-- `goContains` decides substring occurrence. -/
theorem goContains_iff (s sub : String) :
    goContains s sub = true ↔ sub.data <:+: s.data :=
  strContainsAux_iff sub.data s.data

/-- Totality of the byte-wise order. -/
theorem charListLe_total (a : List Char) :
    ∀ b, (charListLe a b || charListLe b a) = true := by
  induction a with
  | nil => intro b; simp [charListLe]
  | cons x xs ih =>
    intro b
    cases b with
    | nil => simp [charListLe]
    | cons y ys =>
      simp only [charListLe]
      by_cases h1 : x.toNat < y.toNat
      · simp [h1]
      · by_cases h2 : y.toNat < x.toNat
        · simp [h1, h2]
        · simp [h1, h2, ih ys]

/-- Transitivity of the byte-wise order. -/
theorem charListLe_trans :
    ∀ a b c : List Char, charListLe a b = true → charListLe b c = true →
      charListLe a c = true
  | [], _, _, _, _ => by simp [charListLe]
  | _ :: _, [], _, hab, _ => by simp [charListLe] at hab
  | _ :: _, _ :: _, [], _, hbc => by simp [charListLe] at hbc
  | x :: xs, y :: ys, z :: zs, hab, hbc => by
    simp only [charListLe] at hab hbc ⊢
    by_cases hxy : x.toNat < y.toNat <;> by_cases hyx : y.toNat < x.toNat <;>
      by_cases hyz : y.toNat < z.toNat <;> by_cases hzy : z.toNat < y.toNat <;>
        simp only [hxy, hyx, hyz, hzy, if_true, if_false] at hab hbc <;>
          first
            | omega
            | (rw [if_pos (by omega)])
            | (rw [if_neg (by omega), if_neg (by omega)]
               exact charListLe_trans xs ys zs hab hbc)
            | simp_all

/-- Totality of `strLe`. -/
theorem strLe_total (a b : String) : (strLe a b || strLe b a) = true :=
  charListLe_total a.data b.data

/-- Transitivity of `strLe`. -/
theorem strLe_trans (a b c : String) (h1 : strLe a b = true)
    (h2 : strLe b c = true) : strLe a c = true :=
  charListLe_trans a.data b.data c.data h1 h2

/-- Characterization of the membership helper when the needle was
upper-cased first (the Oracle predicates). -/
theorem isStringInSlice_upper (dt : String) (L : List String) :
    isStringInSlice (goToUpper dt) L = true ↔
      ∃ s ∈ L, goToLower s = goToLower dt := by
  simp [isStringInSlice, List.any_eq_true, goToLower_goToUpper]

/-- Characterization of the membership helper on the raw needle (the
Postgresql predicates). -/
theorem isStringInSlice_plain (dt : String) (L : List String) :
    isStringInSlice dt L = true ↔ ∃ s ∈ L, goToLower s = goToLower dt := by
  simp [isStringInSlice, List.any_eq_true]

/-- Projecting the names back out of freshly scanned `Table` values. -/
theorem map_name_mk (l : List String) :
    (l.map (fun n => ({ Name := n, Columns := [] } : Table))).map Table.Name = l := by
  rw [List.map_map]
  exact List.map_id' l

/-- The args grown by `andInClause` beyond the initial schema arg are
exactly the lower-cased parameters. -/
theorem andInClause_args_drop (params : List String) (schema : String) :
    ((Postgresql.andInClause "LOWER(table_name)" params [schema]).2.drop 1) =
      params.map goToLower := by
  unfold Postgresql.andInClause
  by_cases h : params.isEmpty
  · rw [List.isEmpty_iff] at h
    subst h
    simp
  · simp only [h, Bool.or_false]
    rw [if_neg (by decide)]
    exact List.drop_left [schema] (params.map goToLower)

/-! ### Claim theorems -/

/-- Claim C1: Oracle's native type NUMBER is a member of both the Oracle
integer datatype list and the Oracle float datatype list, so for every
column whose data type is NUMBER in any letter case both `Oracle.IsInteger`
and `Oracle.IsFloat` return true, and a caller testing categories in the
fixed order String → Text → Integer → Float → Temporal with
first-match-wins classifies the column as Integer. -/
theorem claimC1_number_integer_and_float (c : Column)
    (h : goToUpper c.DataType = "NUMBER") :
    "NUMBER" ∈ Oracle.GetIntegerDatatypes ∧
    "NUMBER" ∈ Oracle.GetFloatDatatypes ∧
    Oracle.IsInteger c = true ∧ Oracle.IsFloat c = true ∧
    Oracle.classifyColumn c = Category.Integer := by
  refine ⟨by decide, by decide, ?_, ?_, ?_⟩
  · unfold Oracle.IsInteger
    rw [h]
    decide
  · unfold Oracle.IsFloat
    rw [h]
    decide
  · unfold Oracle.classifyColumn Oracle.IsString Oracle.IsText
      Oracle.IsInteger Oracle.IsFloat Oracle.IsTemporal
    rw [h]
    decide

/-- Witness for C1 at the mixed-case input "Number". -/
theorem claimC1_witness :
    Oracle.IsInteger { DataType := "Number" } = true ∧
    Oracle.IsFloat { DataType := "Number" } = true ∧
    Oracle.classifyColumn { DataType := "Number" } = Category.Integer := by
  have h := claimC1_number_integer_and_float { DataType := "Number" } (by decide)
  exact ⟨h.2.2.1, h.2.2.2.1, h.2.2.2.2⟩

/-- Claim C3: for every column, each backend's five category predicates
test membership of the column's native data type in that product's
enumerated datatype list case-insensitively, and return false for any type
name absent (modulo case) from that product's list; for the Oracle backend
and the Postgresql backend. -/
theorem claimC3_membership_case_insensitive (c : Column) :
    (Oracle.IsString c = true ↔
      ∃ s ∈ Oracle.GetStringDatatypes, goToLower s = goToLower c.DataType) ∧
    (Oracle.IsText c = true ↔
      ∃ s ∈ Oracle.GetTextDatatypes, goToLower s = goToLower c.DataType) ∧
    (Oracle.IsInteger c = true ↔
      ∃ s ∈ Oracle.GetIntegerDatatypes, goToLower s = goToLower c.DataType) ∧
    (Oracle.IsFloat c = true ↔
      ∃ s ∈ Oracle.GetFloatDatatypes, goToLower s = goToLower c.DataType) ∧
    (Oracle.IsTemporal c = true ↔
      ∃ s ∈ Oracle.GetTemporalDatatypes, goToLower s = goToLower c.DataType) ∧
    (Postgresql.IsString c = true ↔
      ∃ s ∈ Postgresql.GetStringDatatypes, goToLower s = goToLower c.DataType) ∧
    (Postgresql.IsText c = true ↔
      ∃ s ∈ Postgresql.GetTextDatatypes, goToLower s = goToLower c.DataType) ∧
    (Postgresql.IsInteger c = true ↔
      ∃ s ∈ Postgresql.GetIntegerDatatypes, goToLower s = goToLower c.DataType) ∧
    (Postgresql.IsFloat c = true ↔
      ∃ s ∈ Postgresql.GetFloatDatatypes, goToLower s = goToLower c.DataType) ∧
    (Postgresql.IsTemporal c = true ↔
      ∃ s ∈ Postgresql.GetTemporalDatatypes, goToLower s = goToLower c.DataType) :=
  ⟨isStringInSlice_upper c.DataType _, isStringInSlice_upper c.DataType _,
   isStringInSlice_upper c.DataType _, isStringInSlice_upper c.DataType _,
   isStringInSlice_upper c.DataType _, isStringInSlice_plain c.DataType _,
   isStringInSlice_plain c.DataType _, isStringInSlice_plain c.DataType _,
   isStringInSlice_plain c.DataType _, isStringInSlice_plain c.DataType _⟩

/-- Claim C6: `Oracle.IsNullable` returns true iff the column's
nullability flag is exactly the Oracle sentinel "Y", and false for every
other value. -/
theorem claimC6_oracle_isNullable (c : Column) :
    Oracle.IsNullable c = true ↔ c.IsNullable = "Y" := by
  simp [Oracle.IsNullable]

/-- Claim C7: `Oracle.IsAutoIncrement` is constantly false, and
`Postgresql.IsAutoIncrement` holds iff the column's default value contains
the sequence-advance marker "nextval" as a substring. -/
theorem claimC7_autoincrement (c : Column) :
    Oracle.IsAutoIncrement c = false ∧
    (Postgresql.IsAutoIncrement c = true ↔
      "nextval".data <:+: c.DefaultValue.str.data) :=
  ⟨rfl, goContains_iff c.DefaultValue.str "nextval"⟩

/-- Claim C9: the `db` tag generator returns exactly the single fragment
`db:"name"` for the column's name, independent of the backend argument. -/
theorem claimC9_db_tag (t : Db) (db1 db2 : Database) (c : Column) :
    Db.GenerateTag t db1 c = "db:\x22" ++ c.Name ++ "\x22" ∧
    Db.GenerateTag t db1 c = Db.GenerateTag t db2 c :=
  ⟨rfl, rfl⟩

/-- Claim C10: for any settings whose `Port` is not parseable as a decimal
integer (the empty string included), `Oracle.DSN` panics (`none`) instead
of returning a DSN string, and `Oracle.Connect`, which calls `DSN`,
propagates the panic whatever the underlying connect would do. -/
theorem claimC10_dsn_panics_on_bad_port (s : Settings)
    (h : goAtoi s.Port = none) :
    Oracle.DSN s = none ∧
    ∀ connectOutcome : String → Option String,
      Oracle.Connect connectOutcome s = none := by
  have hd : Oracle.DSN s = none := by
    unfold Oracle.DSN
    rw [h]
  exact ⟨hd, fun connectOutcome => by unfold Oracle.Connect; rw [hd]; rfl⟩

/-- Witness for C10 at the empty-string port. -/
theorem claimC10_witness :
    goAtoi (Settings.Port { Port := "" }) = none ∧
    Oracle.DSN { Port := "" } = none ∧
    Oracle.Connect (fun _ => none) { Port := "" } = none := by
  have h := claimC10_dsn_panics_on_bad_port { Port := "" } (by decide)
  exact ⟨by decide, h.1, h.2 (fun _ => none)⟩

/-- Claim C8: for every settings configuration and every outcome of the
underlying query, the table list and error returned by `GetTables` and the
error returned by `GetColumnsOfTable` are identical whether `Verbose` is
true or false, for both backends: verbosity only adds diagnostic printing
and the underlying error is surfaced unmodified. -/
theorem claimC8_verbose_noninterference
    (ocat : List Oracle.AllObjectsRow) (occat : List Oracle.TabColumnRow)
    (pcat : Postgresql.Catalog) (fail : Option String) (s : Settings)
    (b1 b2 : Bool) (tables : List String) (table : Table) :
    (Oracle.GetTables ocat fail { s with Verbose := b1 } tables).value =
      (Oracle.GetTables ocat fail { s with Verbose := b2 } tables).value ∧
    (Oracle.GetTables ocat fail { s with Verbose := b1 } tables).err =
      (Oracle.GetTables ocat fail { s with Verbose := b2 } tables).err ∧
    (Postgresql.GetTables pcat fail { s with Verbose := b1 } tables).value =
      (Postgresql.GetTables pcat fail { s with Verbose := b2 } tables).value ∧
    (Postgresql.GetTables pcat fail { s with Verbose := b1 } tables).err =
      (Postgresql.GetTables pcat fail { s with Verbose := b2 } tables).err ∧
    (Oracle.GetColumnsOfTable occat fail { s with Verbose := b1 } table).err =
      (Oracle.GetColumnsOfTable occat fail { s with Verbose := b2 } table).err ∧
    (Postgresql.GetColumnsOfTable pcat fail { s with Verbose := b1 } table).err =
      (Postgresql.GetColumnsOfTable pcat fail { s with Verbose := b2 } table).err := by
  cases fail <;> exact ⟨rfl, rfl, rfl, rfl, rfl, rfl⟩

/-- Catalog refuting C2's Oracle half: two rows of table T whose
`COLUMN_ID`s arrive in descending catalog order. -/
def c2OracleCat : List Oracle.TabColumnRow :=
  [{ TABLE_NAME := "T", COLUMN_ID := 2, COLUMN_NAME := "B",
     DATA_TYPE := "NUMBER", NULLABLE := "Y" },
   { TABLE_NAME := "T", COLUMN_ID := 1, COLUMN_NAME := "A",
     DATA_TYPE := "NUMBER", NULLABLE := "Y" }]

/-- Counterexample to claim C2 as stated: the Oracle backend's prepared
column query has no ORDER BY, so `Oracle.GetColumnsOfTable` can populate
the columns with ordinal positions out of ascending order. -/
theorem claimC2_counterexample :
    ¬ List.Pairwise (fun a b : Column => a.OrdinalPosition ≤ b.OrdinalPosition)
      ((Oracle.GetColumnsOfTable c2OracleCat none {} { Name := "T" }).value) := by
  decide

set_option maxRecDepth 40000 in
/-- Claim C2 (amended): the Postgresql backend's prepared column query
orders by `ic.ordinal_position`, so its `GetColumnsOfTable` populates the
columns in ascending ordinal-position order; the Oracle backend's prepared
column query contains no ORDER BY clause, so its `GetColumnsOfTable`
returns the matching catalog rows in catalog order, which need not be
ascending. -/
theorem claimC2_columns_order (pcat : Postgresql.Catalog) (s : Settings)
    (table : Table) :
    List.Pairwise (fun a b : Column => a.OrdinalPosition ≤ b.OrdinalPosition)
      ((Postgresql.GetColumnsOfTable pcat none s table).value) ∧
    goContains Postgresql.getColumnsOfTableQuery "ORDER BY ic.ordinal_position" = true ∧
    goContains Oracle.getColumnsOfTableQuery "ORDER BY" = false ∧
    (∀ (ocat : List Oracle.TabColumnRow) (t : Table),
      (Oracle.GetColumnsOfTable ocat none s t).value =
        (ocat.filter (fun r => r.TABLE_NAME == t.Name)).map Oracle.rowToColumn) := by
  refine ⟨?_, by decide, by decide, fun ocat t => rfl⟩
  have hs := @List.sorted_mergeSort Column
    (fun a b => decide (a.OrdinalPosition ≤ b.OrdinalPosition))
    (fun a b c hab hbc => by
      simp only [decide_eq_true_eq] at *
      omega)
    (fun a b => by
      simp only [Bool.or_eq_true, decide_eq_true_eq]
      omega)
  exact (hs _).imp (fun h => by simpa using h)

/-- Claim C5: for every configuration and filter, the table-listing query
built by `GetTables` selects base tables only (Oracle base-table rows have
OBJECT_TYPE = TABLE, Postgres rows have table_type = BASE TABLE), scopes
the query to the configured schema/owner, and orders the returned tables
by name ascending; the built SQL texts carry the ORDER BY clauses. -/
theorem claimC5_base_tables_scoped_sorted
    (ocat : List Oracle.AllObjectsRow) (pcat : Postgresql.Catalog)
    (s : Settings) (tables : List String) :
    List.Pairwise (fun a b => strLe a b = true)
      ((Oracle.GetTables ocat none s tables).value.map Table.Name) ∧
    (∀ name ∈ (Oracle.GetTables ocat none s tables).value.map Table.Name,
      ∃ o ∈ ocat, o.OBJECT_NAME = name ∧ o.OBJECT_TYPE = "TABLE" ∧
        o.OWNER = goToUpper (if s.Schema == "" then s.User else s.Schema)) ∧
    goContains (Oracle.getTablesQuery "") "ORDER BY OBJECT_NAME" = true ∧
    List.Pairwise (fun a b => strLe a b = true)
      ((Postgresql.GetTables pcat none s tables).value.map Table.Name) ∧
    (∀ name ∈ (Postgresql.GetTables pcat none s tables).value.map Table.Name,
      ∃ t ∈ pcat.tables, t.table_name = name ∧ t.table_type = "BASE TABLE" ∧
        t.table_schema = s.Schema) ∧
    goContains (Postgresql.getTablesQuery "") "ORDER BY table_name" = true := by
  refine ⟨?_, ?_, by decide, ?_, ?_, by decide⟩
  · show List.Pairwise _
      (((Oracle.getTablesQuerySemantics ocat _ _).map
        (fun n => ({ Name := n, Columns := [] } : Table))).map Table.Name)
    rw [map_name_mk]
    exact List.sorted_mergeSort strLe_trans strLe_total _
  · intro name hname
    rw [show (Oracle.GetTables ocat none s tables).value =
      (Oracle.getTablesQuerySemantics ocat
        (goToUpper (if s.Schema == "" then s.User else s.Schema))
        (tables.map goToUpper)).map
          (fun n => ({ Name := n, Columns := [] } : Table)) from rfl,
      map_name_mk] at hname
    unfold Oracle.getTablesQuerySemantics at hname
    rw [List.mem_mergeSort, List.mem_dedup] at hname
    obtain ⟨o, ho, rfl⟩ := List.mem_map.mp hname
    obtain ⟨hmem, hcond⟩ := List.mem_filter.mp ho
    simp only [Bool.and_eq_true] at hcond
    exact ⟨o, hmem, rfl, by simpa using hcond.1.1, by simpa using hcond.1.2⟩
  · show List.Pairwise _
      (((Postgresql.getTablesQuerySemantics pcat _ _).map
        (fun n => ({ Name := n, Columns := [] } : Table))).map Table.Name)
    rw [map_name_mk]
    exact List.sorted_mergeSort strLe_trans strLe_total _
  · intro name hname
    rw [show (Postgresql.GetTables pcat none s tables).value =
      (Postgresql.getTablesQuerySemantics pcat s.Schema
        ((Postgresql.andInClause "LOWER(table_name)" tables [s.Schema]).2.drop 1)).map
          (fun n => ({ Name := n, Columns := [] } : Table)) from rfl,
      map_name_mk] at hname
    unfold Postgresql.getTablesQuerySemantics at hname
    rw [List.mem_mergeSort] at hname
    obtain ⟨t, ht, rfl⟩ := List.mem_map.mp hname
    obtain ⟨hmem, hcond⟩ := List.mem_filter.mp ht
    simp only [Bool.and_eq_true] at hcond
    exact ⟨t, hmem, rfl, by simpa using hcond.1.1, by simpa using hcond.1.2⟩

/-- Bool `contains` on string lists is membership. -/
theorem contains_iff {l : List String} {a : String} :
    l.contains a = true ↔ a ∈ l :=
  List.elem_iff

/-- Membership in the Oracle table-listing result with a non-empty bound
name list is membership in the unfiltered result plus membership in the
bound names. -/
theorem oracle_tables_mem (cat : List Oracle.AllObjectsRow) (owner : String)
    (nameArgs : List String) (hne : nameArgs ≠ []) (name : String) :
    name ∈ Oracle.getTablesQuerySemantics cat owner nameArgs ↔
      (name ∈ Oracle.getTablesQuerySemantics cat owner [] ∧ name ∈ nameArgs) := by
  unfold Oracle.getTablesQuerySemantics
  simp only [List.mem_mergeSort, List.mem_dedup, List.mem_map, List.mem_filter,
    Bool.and_eq_true, Bool.or_eq_true]
  constructor
  · rintro ⟨o, ⟨ho, hw, hfilter⟩, rfl⟩
    rcases hfilter with hemp | hcont
    · exact absurd (List.isEmpty_iff.mp hemp) hne
    · exact ⟨⟨o, ⟨ho, hw, Or.inl rfl⟩, rfl⟩, contains_iff.mp hcont⟩
  · rintro ⟨⟨o, ⟨ho, hw, _⟩, rfl⟩, hmem⟩
    exact ⟨o, ⟨ho, hw, Or.inr (contains_iff.mpr hmem)⟩, rfl⟩

/-- Membership in the Postgresql table-listing result with a non-empty
bound name list is membership in the unfiltered result plus membership of
the lower-cased name in the bound names. -/
theorem pg_tables_mem (cat : Postgresql.Catalog) (schema : String)
    (nameArgs : List String) (hne : nameArgs ≠ []) (name : String) :
    name ∈ Postgresql.getTablesQuerySemantics cat schema nameArgs ↔
      (name ∈ Postgresql.getTablesQuerySemantics cat schema [] ∧
        goToLower name ∈ nameArgs) := by
  unfold Postgresql.getTablesQuerySemantics
  simp only [List.mem_mergeSort, List.mem_map, List.mem_filter,
    Bool.and_eq_true, Bool.or_eq_true]
  constructor
  · rintro ⟨t, ⟨ht, hw, hfilter⟩, rfl⟩
    rcases hfilter with hemp | hcont
    · exact absurd (List.isEmpty_iff.mp hemp) hne
    · exact ⟨⟨t, ⟨ht, hw, Or.inl rfl⟩, rfl⟩, contains_iff.mp hcont⟩
  · rintro ⟨⟨t, ⟨ht, hw, _⟩, rfl⟩, hmem⟩
    exact ⟨t, ⟨ht, hw, Or.inr (contains_iff.mpr hmem)⟩, rfl⟩

/-- Claim C4: for every non-empty table-name filter, `GetTables` restricts
the result to exactly the filtered names regardless of the casing of the
filter input: Oracle upper-cases each filter name before binding it, so
membership in the result is membership in the unfiltered result plus
membership of the name among the upper-cased filter names, and Postgresql
lower-cases each filter name and compares it with LOWER(table_name);
filters that agree after case-normalization give identical results. -/
theorem claimC4_filter_exact_case_normalized
    (ocat : List Oracle.AllObjectsRow) (pcat : Postgresql.Catalog)
    (s : Settings) (tables tables2 : List String) (name : String)
    (hne : tables ≠ []) :
    (name ∈ (Oracle.GetTables ocat none s tables).value.map Table.Name ↔
      name ∈ (Oracle.GetTables ocat none s []).value.map Table.Name ∧
        name ∈ tables.map goToUpper) ∧
    (tables.map goToUpper = tables2.map goToUpper →
      (Oracle.GetTables ocat none s tables).value =
        (Oracle.GetTables ocat none s tables2).value) ∧
    (name ∈ (Postgresql.GetTables pcat none s tables).value.map Table.Name ↔
      name ∈ (Postgresql.GetTables pcat none s []).value.map Table.Name ∧
        goToLower name ∈ tables.map goToLower) ∧
    (tables.map goToLower = tables2.map goToLower →
      (Postgresql.GetTables pcat none s tables).value =
        (Postgresql.GetTables pcat none s tables2).value) := by
  have hneU : tables.map goToUpper ≠ [] := by
    cases tables with
    | nil => exact absurd rfl hne
    | cons a l => simp
  have hneL : tables.map goToLower ≠ [] := by
    cases tables with
    | nil => exact absurd rfl hne
    | cons a l => simp
  refine ⟨?_, ?_, ?_, ?_⟩
  · rw [show (Oracle.GetTables ocat none s tables).value =
      (Oracle.getTablesQuerySemantics ocat
        (goToUpper (if s.Schema == "" then s.User else s.Schema))
        (tables.map goToUpper)).map
          (fun n => ({ Name := n, Columns := [] } : Table)) from rfl,
      show (Oracle.GetTables ocat none s []).value =
      (Oracle.getTablesQuerySemantics ocat
        (goToUpper (if s.Schema == "" then s.User else s.Schema))
        ([] : List String)).map
          (fun n => ({ Name := n, Columns := [] } : Table)) from rfl,
      map_name_mk, map_name_mk]
    exact oracle_tables_mem ocat _ _ hneU name
  · intro h
    show (Oracle.getTablesQuerySemantics ocat _ (tables.map goToUpper)).map _ =
      (Oracle.getTablesQuerySemantics ocat _ (tables2.map goToUpper)).map _
    rw [h]
  · rw [show (Postgresql.GetTables pcat none s tables).value =
      (Postgresql.getTablesQuerySemantics pcat s.Schema
        ((Postgresql.andInClause "LOWER(table_name)" tables [s.Schema]).2.drop 1)).map
          (fun n => ({ Name := n, Columns := [] } : Table)) from rfl,
      show (Postgresql.GetTables pcat none s []).value =
      (Postgresql.getTablesQuerySemantics pcat s.Schema
        ((Postgresql.andInClause "LOWER(table_name)" [] [s.Schema]).2.drop 1)).map
          (fun n => ({ Name := n, Columns := [] } : Table)) from rfl,
      map_name_mk, map_name_mk, andInClause_args_drop, andInClause_args_drop]
    exact pg_tables_mem pcat s.Schema _ hneL name
  · intro h
    show (Postgresql.getTablesQuerySemantics pcat s.Schema
        ((Postgresql.andInClause "LOWER(table_name)" tables [s.Schema]).2.drop 1)).map _ =
      (Postgresql.getTablesQuerySemantics pcat s.Schema
        ((Postgresql.andInClause "LOWER(table_name)" tables2 [s.Schema]).2.drop 1)).map _
    rw [andInClause_args_drop, andInClause_args_drop, h]

/-- Witness for C4: a mixed-case filter against one-row catalogs. -/
theorem claimC4_witness :
    "CUSTOMERS" ∈ ((Oracle.GetTables [⟨"CUSTOMERS", "TABLE", "S"⟩] none
        { Schema := "s" } ["Customers"]).value.map Table.Name) ↔
      "CUSTOMERS" ∈ ((Oracle.GetTables [⟨"CUSTOMERS", "TABLE", "S"⟩] none
        { Schema := "s" } []).value.map Table.Name) ∧
        "CUSTOMERS" ∈ (["Customers"].map goToUpper) :=
  (claimC4_filter_exact_case_normalized [⟨"CUSTOMERS", "TABLE", "S"⟩] {}
    { Schema := "s" } ["Customers"] [] "CUSTOMERS" (by decide)).1

end TablesToGo
